import Mathlib

/-!
Verification development for the FrisPy equations-of-motion core
(src/frispy/equations_of_motion.py).

The Python source computes, for an external ODE integrator, the time
derivative of a 13-component kinematic state of a spinning disc.  The
numerics (numpy arrays, scipy Rotation objects) are embedded shallowly
over the real numbers:

* a numpy 3-vector becomes the structure V3; componentwise arithmetic
  mirrors the numpy broadcasting used by the source;
* a scipy Rotation is represented by its scalar-last quaternion (x,y,z,w);
  Rotation.from_quat normalizes its input (and raises on an exactly
  zero-norm quaternion, the only exception the source can raise on these
  code paths), Rotation.as_matrix is the standard rotation matrix of the
  normalized quaternion, and composition of two Rotations multiplies the
  quaternions with the Hamilton product in scalar-last layout;
* numpy division is total in the source (it emits NaN or Inf instead of
  raising); in the real-number embedding a quotient with zero denominator
  takes the Lean convention x / 0 = 0.  No claim settled below depends on
  the particular junk value produced by a zero denominator, only on the
  fact that evaluation continues and returns an ordinary value.
-/

noncomputable section

namespace FrisPy

open scoped Classical

/-- A real 3-vector, the embedding of a numpy array of shape (3,). -/
@[ext]
structure V3 where
  x : ℝ
  y : ℝ
  z : ℝ

instance : Zero V3 := ⟨⟨0, 0, 0⟩⟩

instance : Add V3 := ⟨fun a b => ⟨a.x + b.x, a.y + b.y, a.z + b.z⟩⟩

instance : Sub V3 := ⟨fun a b => ⟨a.x - b.x, a.y - b.y, a.z - b.z⟩⟩

instance : Neg V3 := ⟨fun a => ⟨-a.x, -a.y, -a.z⟩⟩

instance : SMul ℝ V3 := ⟨fun c a => ⟨c * a.x, c * a.y, c * a.z⟩⟩

/-- Componentwise product of a vector with a scalar on the right
(numpy array * scalar). -/
def V3.scale (a : V3) (c : ℝ) : V3 := ⟨a.x * c, a.y * c, a.z * c⟩

/-- Componentwise quotient of a vector by a scalar (numpy array / scalar). -/
def V3.sdiv (a : V3) (c : ℝ) : V3 := ⟨a.x / c, a.y / c, a.z / c⟩

/-- Euclidean inner product (numpy v @ w). -/
def V3.dot (a b : V3) : ℝ := a.x * b.x + a.y * b.y + a.z * b.z

/-- Cross product (numpy np.cross). -/
def V3.cross (a b : V3) : V3 :=
  ⟨a.y * b.z - a.z * b.y, a.z * b.x - a.x * b.z, a.x * b.y - a.y * b.x⟩

/-- Euclidean norm (np.linalg.norm). -/
def V3.norm (a : V3) : ℝ := Real.sqrt (a.dot a)

@[simp] lemma V3.zero_def : (0 : V3) = ⟨0, 0, 0⟩ := rfl

@[simp] lemma V3.add_def (a b : V3) : a + b = ⟨a.x + b.x, a.y + b.y, a.z + b.z⟩ := rfl

@[simp] lemma V3.sub_def (a b : V3) : a - b = ⟨a.x - b.x, a.y - b.y, a.z - b.z⟩ := rfl

@[simp] lemma V3.neg_def (a : V3) : -a = ⟨-a.x, -a.y, -a.z⟩ := rfl

@[simp] lemma V3.smul_def (c : ℝ) (a : V3) : c • a = ⟨c * a.x, c * a.y, c * a.z⟩ := rfl

/-- A scalar-last quaternion (x, y, z, w), the embedding of the array a
scipy Rotation stores and returns through as_quat. -/
@[ext]
structure Quat where
  x : ℝ
  y : ℝ
  z : ℝ
  w : ℝ

/-- Squared norm of a quaternion. -/
def Quat.normSq (q : Quat) : ℝ := q.x * q.x + q.y * q.y + q.z * q.z + q.w * q.w

/-- Norm of a quaternion. -/
def Quat.qnorm (q : Quat) : ℝ := Real.sqrt q.normSq

/-- Normalization performed by scipy Rotation.from_quat: the stored
quaternion is the input divided by its norm. -/
def Quat.normalize (q : Quat) : Quat :=
  ⟨q.x / q.qnorm, q.y / q.qnorm, q.z / q.qnorm, q.w / q.qnorm⟩

/-- Hamilton product in scalar-last layout; this is the quaternion
composition scipy performs for Rotation multiplication (the left factor
is applied after the right one). -/
def Quat.hmul (p q : Quat) : Quat :=
  ⟨p.w * q.x + q.w * p.x + (p.y * q.z - p.z * q.y),
   p.w * q.y + q.w * p.y + (p.z * q.x - p.x * q.z),
   p.w * q.z + q.w * p.z + (p.x * q.y - p.y * q.x),
   p.w * q.w - (p.x * q.x + p.y * q.y + p.z * q.z)⟩

/-- The rotation matrix of a (unit) scalar-last quaternion applied to a
vector; this is scipy Rotation.as_matrix followed by the matrix-vector
product used in calculate_intermediate_quantities. -/
def Quat.rotApply (q : Quat) (v : V3) : V3 :=
  ⟨(1 - 2 * (q.y * q.y + q.z * q.z)) * v.x + 2 * (q.x * q.y - q.z * q.w) * v.y
      + 2 * (q.x * q.z + q.y * q.w) * v.z,
   2 * (q.x * q.y + q.z * q.w) * v.x + (1 - 2 * (q.x * q.x + q.z * q.z)) * v.y
      + 2 * (q.y * q.z - q.x * q.w) * v.z,
   2 * (q.x * q.z - q.y * q.w) * v.x + 2 * (q.y * q.z + q.x * q.w) * v.y
      + (1 - 2 * (q.x * q.x + q.y * q.y)) * v.z⟩

/-- Python math.isclose with its default parameters rel_tol = 1e-9 and
abs_tol = 0.0, as used on the line math.isclose(0, w_norm) of
compute_torques. -/
def math_isclose (a b : ℝ) : Prop :=
  |a - b| ≤ max ((1 / 1000000000) * max |a| |b|) 0

/-- Modelled from the spec: the Environment collaborator (module
frispy.environment, not under src); per the spec contract it exposes an
air density scalar, a gravitational acceleration magnitude g, and a
gravity direction 3-vector, all read-only. -/
structure Environment where
  air_density : ℝ
  g : ℝ
  grav_vector : V3

/-- Modelled from the spec: the Model collaborator (module frispy.model,
not under src); per the spec contract it exposes mass, area, diameter,
the principal moments of inertia I_xx and I_zz, two damping scalars, and
the opaque aerodynamic coefficient functions. -/
structure Model where
  mass : ℝ
  area : ℝ
  diameter : ℝ
  I_xx : ℝ
  I_zz : ℝ
  dampening_factor : ℝ
  dampening_z : ℝ
  C_lift : ℝ → ℝ
  C_drag : ℝ → ℝ
  C_side : ℝ → ℝ → ℝ → ℝ
  C_x : ℝ → ℝ → ℝ → ℝ
  C_y : ℝ → ℝ

/-- The one exception the embedded code paths can raise: scipy
Rotation.from_quat raises ValueError on a quaternion of exactly zero
norm. -/
inductive EomErr where
  | zeroNormQuaternion

/-- The 13-component state vector unpacked positionally, in the order of
the line x, y, z, vx, vy, vz, qx, qy, qz, qw, dphi, dtheta, dgamma of
compute_derivatives. -/
structure Coordinates where
  x : ℝ
  y : ℝ
  z : ℝ
  vx : ℝ
  vy : ℝ
  vz : ℝ
  qx : ℝ
  qy : ℝ
  qz : ℝ
  qw : ℝ
  dphi : ℝ
  dtheta : ℝ
  dgamma : ℝ

/-- The intermediate quantities dictionary built by
calculate_intermediate_quantities: the unit_vectors entries xhat, yhat,
zhat, the angle_of_attack entry, and the wobble entry w. -/
structure InterQuantities where
  xhat : V3
  yhat : V3
  zhat : V3
  angle_of_attack : ℝ
  w : V3

/-- The dictionary after compute_forces has extended it with the force
entries and the linear acceleration entry Acc. -/
structure ForcesRes where
  inter : InterQuantities
  F_lift : V3
  F_side : V3
  F_drag : V3
  F_grav : V3
  F_total : V3
  Acc : V3

/-- The dictionary after compute_torques has further extended it with
torque_amplitude, the angular acceleration T, and the quaternion
derivative dq. -/
structure TorquesRes where
  forces : ForcesRes
  torque_amplitude : ℝ
  T : V3
  dq : Quat

/-- Embedding of EOM.calculate_intermediate_quantities: disc normal zhat
from the rotation applied to (0,0,1), in-plane velocity decomposition,
normalized xhat, yhat as zhat cross xhat, signed angle of attack, and
the wobble vector. -/
def calculate_intermediate_quantities (rotation : Quat) (velocity : V3)
    (ang_velocity : V3) : InterQuantities :=
  let zhat := rotation.rotApply ⟨0, 0, 1⟩
  let v_dot_zhat := velocity.dot zhat
  let v_in_plane := velocity - V3.scale zhat v_dot_zhat
  let xhat := v_in_plane.sdiv v_in_plane.norm
  let yhat := zhat.cross xhat
  let angle_of_attack := -Real.arctan (v_dot_zhat / v_in_plane.norm)
  let w := rotation.rotApply ⟨ang_velocity.x, ang_velocity.y, 0⟩
  ⟨xhat, yhat, zhat, angle_of_attack, w⟩

/-- The in-plane velocity residual computed on the lines 210 to 212 of
the source, exposed for the statements of the degeneracy hypotheses. -/
def vInPlaneOf (rotation : Quat) (velocity : V3) : V3 :=
  velocity - V3.scale (rotation.rotApply ⟨0, 0, 1⟩)
    (velocity.dot (rotation.rotApply ⟨0, 0, 1⟩))

/-- Embedding of EOM.compute_forces. -/
def compute_forces (env : Environment) (model : Model) (rotation : Quat)
    (velocity : V3) (ang_velocity : V3) : ForcesRes :=
  let res := calculate_intermediate_quantities rotation velocity ang_velocity
  let aoa := res.angle_of_attack
  let v_norm := velocity.norm
  let vhat := velocity.sdiv v_norm
  let force_amplitude := 0.5 * env.air_density * velocity.dot velocity * model.area
  let F_lift := (model.C_lift aoa * force_amplitude) • (vhat.cross res.yhat)
  let F_side := (model.C_side aoa v_norm ang_velocity.z * force_amplitude) • res.yhat
  let F_drag := (model.C_drag aoa * force_amplitude) • (-vhat)
  let F_grav := (model.mass * env.g) • env.grav_vector
  let F_total := F_lift + F_drag + F_grav + F_side
  ⟨res, F_lift, F_side, F_drag, F_grav, F_total, F_total.sdiv model.mass⟩

/-- Embedding of EOM.compute_wobble_precession: damping term plus the
gyroscopic precession self-coupling term, written with the operator
grouping of the source lines. -/
def compute_wobble_precession (model : Model) (ang_velocity : V3)
    (torque : ℝ) : V3 :=
  let i_xx := model.I_xx
  let i_zz := model.I_zz
  let wx := ang_velocity.x
  let wy := ang_velocity.y
  let wz := ang_velocity.z
  let dampening := model.dampening_factor
  let dampening_z := model.dampening_z
  let acc := V3.scale ⟨wx * dampening / i_xx, wy * dampening / i_xx,
    wz * dampening_z / i_zz⟩ torque
  let delta_moment := model.I_zz - model.I_xx
  acc + (delta_moment / i_xx * 2 * wz) • (⟨-wy, wx, 0⟩ : V3)

/-- Embedding of EOM.compute_torques.  In the branch where the
math.isclose guard fails, w is nonzero, so the normalization performed
by Rotation.from_quat on the pure velocity quaternion cannot raise. -/
def compute_torques (env : Environment) (model : Model) (velocity : V3)
    (ang_velocity : V3) (rotation : Quat) (res : ForcesRes) : TorquesRes :=
  let aoa := res.inter.angle_of_attack
  let torque_amplitude :=
    0.5 * env.air_density * velocity.dot velocity * model.diameter * model.area
  let i_xx := model.I_xx
  let i_zz := model.I_zz
  let torque := torque_amplitude
  let wz := ang_velocity.z
  let v_norm := velocity.norm
  let roll := (model.C_y aoa * torque) • res.inter.xhat
  let pitch_up := (model.C_x aoa v_norm wz * torque) • res.inter.yhat
  let wobble := res.inter.w
  let w := (roll + pitch_up).sdiv (i_zz * wz) + wobble
  let w_norm := w.norm
  let wquat :=
    if math_isclose 0 w_norm then (⟨0, 0, 0, 1⟩ : Quat)
    else Quat.hmul (Quat.normalize ⟨w.x, w.y, w.z, 0⟩) rotation
  let T := compute_wobble_precession model ang_velocity torque
  ⟨res, torque_amplitude, T,
    ⟨wquat.x * w_norm / 2, wquat.y * w_norm / 2,
     wquat.z * w_norm / 2, wquat.w * w_norm / 2⟩⟩

/-- Embedding of EOM.compute_derivatives, the entry point handed to the
external integrator.  The time argument is accepted and ignored, as in
the source.  Rotation.from_quat raises exactly when the state quaternion
has zero norm; every other path returns an ordinary 13-element list. -/
def compute_derivatives (env : Environment) (model : Model) (time : ℝ)
    (c : Coordinates) : Except EomErr (List ℝ) :=
  let velocity : V3 := ⟨c.vx, c.vy, c.vz⟩
  let q : Quat := ⟨c.qx, c.qy, c.qz, c.qw⟩
  if q.normSq = 0 then Except.error EomErr.zeroNormQuaternion
  else
    let rotation := q.normalize
    let ang_velocity : V3 := ⟨c.dphi, c.dtheta, c.dgamma⟩
    let result := compute_forces env model rotation velocity ang_velocity
    let result2 := compute_torques env model velocity ang_velocity rotation result
    Except.ok [c.vx, c.vy, c.vz,
      result.Acc.x, result.Acc.y, result.Acc.z,
      result2.dq.x, result2.dq.y, result2.dq.z, result2.dq.w,
      result2.T.x, result2.T.y, result2.T.z]

/-- The EOM object holding the two injected read-only collaborators. -/
structure EOM where
  environment : Environment
  model : Model

/-- The compute_derivatives method with the object state passed
explicitly: the Python method reads self.environment and self.model and
assigns no attribute of self, so the post-call object is returned
unchanged alongside the result. -/
def EOM.derivative_call (eom : EOM) (time : ℝ) (c : Coordinates) :
    Except EomErr (List ℝ) × EOM :=
  (compute_derivatives eom.environment eom.model time c, eom)

/-- The combined angular-rate vector w assembled inside compute_torques:
the roll and pitch moments divided by the spin angular momentum
I_zz * dgamma, plus the wobble vector. -/
def combined_w (env : Environment) (model : Model) (v av : V3)
    (res : ForcesRes) : V3 :=
  ((model.C_y res.inter.angle_of_attack *
      (0.5 * env.air_density * v.dot v * model.diameter * model.area)) •
        res.inter.xhat +
    (model.C_x res.inter.angle_of_attack v.norm av.z *
      (0.5 * env.air_density * v.dot v * model.diameter * model.area)) •
        res.inter.yhat).sdiv (model.I_zz * av.z) + res.inter.w

/-- A concrete Environment used in the concrete evaluations: air density
2, gravity magnitude 0, gravity direction (0,0,-1). -/
def envA : Environment := ⟨2, 0, ⟨0, 0, -1⟩⟩

/-- A concrete Model used in the concrete evaluations: mass, area,
diameter and I_xx all 1, I_zz equal to 2, both damping scalars 0, and
every aerodynamic coefficient function identically 0. -/
def modelA : Model :=
  ⟨1, 1, 1, 1, 2, 0, 0, fun _ => 0, fun _ => 0, fun _ _ _ => 0,
    fun _ _ _ => 0, fun _ => 0⟩

/-- A state with zero velocity (degenerate geometry), identity
orientation quaternion and pure spin. -/
def coordsV0 : Coordinates := ⟨0, 0, 0, 0, 0, 0, 0, 0, 0, 1, 0, 0, 1⟩

/-- A state with velocity (1,0,0), identity orientation quaternion and
zero spin rate dgamma. -/
def coordsS0 : Coordinates := ⟨0, 0, 0, 1, 0, 0, 0, 0, 0, 1, 0, 0, 0⟩

/-- A state with velocity (1,0,0), identity orientation quaternion and
angular velocity (0,0,1). -/
def coordsB : Coordinates := ⟨0, 0, 0, 1, 0, 0, 0, 0, 0, 1, 0, 0, 1⟩

/-! ## Basic algebraic facts about the embedded vector operations -/

lemma V3.dot_self_nonneg (v : V3) : 0 ≤ v.dot v := by
  simp only [V3.dot]
  nlinarith [mul_self_nonneg v.x, mul_self_nonneg v.y, mul_self_nonneg v.z]

lemma V3.dot_self_eq_zero (v : V3) : v.dot v = 0 ↔ v = 0 := by
  constructor
  · intro h
    simp only [V3.dot] at h
    have hx : v.x = 0 := mul_self_eq_zero.mp (by
      nlinarith [mul_self_nonneg v.x, mul_self_nonneg v.y, mul_self_nonneg v.z])
    have hy : v.y = 0 := mul_self_eq_zero.mp (by
      nlinarith [mul_self_nonneg v.x, mul_self_nonneg v.y, mul_self_nonneg v.z])
    have hz : v.z = 0 := mul_self_eq_zero.mp (by
      nlinarith [mul_self_nonneg v.x, mul_self_nonneg v.y, mul_self_nonneg v.z])
    ext <;> simp [hx, hy, hz]
  · intro h
    subst h
    simp [V3.dot]

lemma V3.norm_nonneg (v : V3) : 0 ≤ v.norm := Real.sqrt_nonneg _

lemma V3.mul_self_norm (v : V3) : v.norm * v.norm = v.dot v :=
  Real.mul_self_sqrt (V3.dot_self_nonneg v)

lemma V3.norm_eq_zero_iff (v : V3) : v.norm = 0 ↔ v = 0 := by
  rw [V3.norm, Real.sqrt_eq_zero (V3.dot_self_nonneg v), V3.dot_self_eq_zero]

lemma V3.dot_comm (a b : V3) : a.dot b = b.dot a := by simp only [V3.dot]; ring

lemma V3.sub_dot (a b c : V3) : (a - b).dot c = a.dot c - b.dot c := by
  simp only [V3.sub_def, V3.dot]; ring

lemma V3.scale_dot (a : V3) (t : ℝ) (c : V3) :
    (V3.scale a t).dot c = t * a.dot c := by
  simp only [V3.scale, V3.dot]; ring

lemma V3.sdiv_dot_sdiv (a b : V3) (t : ℝ) :
    (a.sdiv t).dot (b.sdiv t) = a.dot b / (t * t) := by
  simp only [V3.sdiv, V3.dot]
  field_simp

lemma V3.sdiv_dot (a : V3) (t : ℝ) (c : V3) :
    (a.sdiv t).dot c = a.dot c / t := by
  simp only [V3.sdiv, V3.dot]
  field_simp

lemma V3.cross_dot_left (a b : V3) : (a.cross b).dot a = 0 := by
  simp only [V3.cross, V3.dot]; ring

lemma V3.cross_dot_right (a b : V3) : (a.cross b).dot b = 0 := by
  simp only [V3.cross, V3.dot]; ring

/-- Lagrange identity for the cross product, at the level of components. -/
lemma V3.cross_dot_self (a b : V3) :
    (a.cross b).dot (a.cross b) = a.dot a * b.dot b - a.dot b * (a.dot b) := by
  simp only [V3.cross, V3.dot]; ring

@[simp] lemma V3.smul_zero_left (v : V3) : (0 : ℝ) • v = 0 := by
  simp only [V3.smul_def, V3.zero_def, zero_mul]

@[simp] lemma V3.add_zero_v (v : V3) : v + 0 = v := by
  simp only [V3.add_def, V3.zero_def, add_zero]

@[simp] lemma V3.zero_add_v (v : V3) : (0 : V3) + v = v := by
  simp only [V3.add_def, V3.zero_def, zero_add]

@[simp] lemma V3.sdiv_zero_vec (t : ℝ) : (0 : V3).sdiv t = 0 := by
  simp [V3.sdiv]

@[simp] lemma V3.norm_zero_vec : (0 : V3).norm = 0 := by
  simp [V3.norm, V3.dot]

/-! ## Facts about the quaternion embedding -/

lemma Quat.normSq_nonneg (q : Quat) : 0 ≤ q.normSq := by
  simp only [Quat.normSq]
  nlinarith [mul_self_nonneg q.x, mul_self_nonneg q.y, mul_self_nonneg q.z,
    mul_self_nonneg q.w]

/-- The identity quaternion rotates nothing. -/
lemma Quat.rotApply_identity (v : V3) : Quat.rotApply ⟨0, 0, 0, 1⟩ v = v := by
  simp only [Quat.rotApply]
  ext <;> ring

@[simp] lemma Quat.normalize_identity : Quat.normalize ⟨0, 0, 0, 1⟩ = ⟨0, 0, 0, 1⟩ := by
  simp [Quat.normalize, Quat.qnorm, Quat.normSq]

/-- The norm of the pure velocity quaternion equals the norm of the
underlying 3-vector. -/
lemma Quat.qnorm_pure (v : V3) : Quat.qnorm ⟨v.x, v.y, v.z, 0⟩ = v.norm := by
  simp only [Quat.qnorm, Quat.normSq, V3.norm, V3.dot]
  norm_num

/-- The Hamilton product is homogeneous in its left factor. -/
lemma Quat.hmul_smul_left (c : ℝ) (p q : Quat) :
    Quat.hmul ⟨c * p.x, c * p.y, c * p.z, c * p.w⟩ q =
      ⟨c * (Quat.hmul p q).x, c * (Quat.hmul p q).y,
       c * (Quat.hmul p q).z, c * (Quat.hmul p q).w⟩ := by
  simp only [Quat.hmul]
  ext <;> ring

/-- Scaling a quaternion by a positive factor does not change its
normalization; this is what makes Rotation.from_quat insensitive to the
overall magnitude of its input. -/
lemma Quat.normalize_smul (c a b d e : ℝ) (hc : 0 < c) :
    Quat.normalize ⟨c * a, c * b, c * d, c * e⟩ = Quat.normalize ⟨a, b, d, e⟩ := by
  have hsq : Quat.normSq ⟨c * a, c * b, c * d, c * e⟩ =
      c ^ 2 * Quat.normSq ⟨a, b, d, e⟩ := by
    simp only [Quat.normSq]; ring
  have hn : Quat.qnorm ⟨c * a, c * b, c * d, c * e⟩ =
      c * Quat.qnorm ⟨a, b, d, e⟩ := by
    rw [Quat.qnorm, hsq, Real.sqrt_mul (sq_nonneg c), Real.sqrt_sq hc.le, Quat.qnorm]
  simp only [Quat.normalize, hn]
  ext <;> exact mul_div_mul_left _ _ hc.ne'

/-! ## Facts about the math.isclose guard -/

/-- With the default parameters rel_tol = 1e-9 and abs_tol = 0, the
guard math.isclose(0, x) degenerates, for a nonnegative x, to exact
equality with zero: x ≤ 1e-9 * x forces x = 0. -/
lemma math_isclose_zero_iff (x : ℝ) (hx : 0 ≤ x) : math_isclose 0 x ↔ x = 0 := by
  unfold math_isclose
  rw [zero_sub, abs_neg, abs_of_nonneg hx, abs_zero, max_eq_right hx,
    max_eq_left (mul_nonneg (by norm_num) hx)]
  constructor
  · intro h
    nlinarith
  · intro h
    subst h
    norm_num

lemma math_isclose_zero_zero : math_isclose 0 0 := by
  unfold math_isclose
  norm_num

/-! ## Projection lemmas unfolding the embedded functions field by field -/

lemma ciq_zhat (r : Quat) (v av : V3) :
    (calculate_intermediate_quantities r v av).zhat = r.rotApply ⟨0, 0, 1⟩ := rfl

lemma ciq_xhat (r : Quat) (v av : V3) :
    (calculate_intermediate_quantities r v av).xhat =
      (vInPlaneOf r v).sdiv (vInPlaneOf r v).norm := rfl

lemma ciq_yhat (r : Quat) (v av : V3) :
    (calculate_intermediate_quantities r v av).yhat =
      (r.rotApply ⟨0, 0, 1⟩).cross ((vInPlaneOf r v).sdiv (vInPlaneOf r v).norm) := rfl

lemma ciq_aoa (r : Quat) (v av : V3) :
    (calculate_intermediate_quantities r v av).angle_of_attack =
      -Real.arctan (v.dot (r.rotApply ⟨0, 0, 1⟩) / (vInPlaneOf r v).norm) := rfl

lemma ciq_w (r : Quat) (v av : V3) :
    (calculate_intermediate_quantities r v av).w =
      r.rotApply ⟨av.x, av.y, 0⟩ := rfl

lemma compute_forces_inter (env : Environment) (model : Model) (r : Quat)
    (v av : V3) : (compute_forces env model r v av).inter =
      calculate_intermediate_quantities r v av := rfl

lemma compute_forces_F_lift (env : Environment) (model : Model) (r : Quat)
    (v av : V3) : (compute_forces env model r v av).F_lift =
      (model.C_lift (calculate_intermediate_quantities r v av).angle_of_attack *
        (0.5 * env.air_density * v.dot v * model.area)) •
        ((v.sdiv v.norm).cross (calculate_intermediate_quantities r v av).yhat) := rfl

lemma compute_forces_F_side (env : Environment) (model : Model) (r : Quat)
    (v av : V3) : (compute_forces env model r v av).F_side =
      (model.C_side (calculate_intermediate_quantities r v av).angle_of_attack
          v.norm av.z * (0.5 * env.air_density * v.dot v * model.area)) •
        (calculate_intermediate_quantities r v av).yhat := rfl

lemma compute_forces_F_drag (env : Environment) (model : Model) (r : Quat)
    (v av : V3) : (compute_forces env model r v av).F_drag =
      (model.C_drag (calculate_intermediate_quantities r v av).angle_of_attack *
        (0.5 * env.air_density * v.dot v * model.area)) • (-(v.sdiv v.norm)) := rfl

lemma compute_forces_F_grav (env : Environment) (model : Model) (r : Quat)
    (v av : V3) : (compute_forces env model r v av).F_grav =
      (model.mass * env.g) • env.grav_vector := rfl

lemma compute_forces_F_total (env : Environment) (model : Model) (r : Quat)
    (v av : V3) : (compute_forces env model r v av).F_total =
      (compute_forces env model r v av).F_lift +
      (compute_forces env model r v av).F_drag +
      (compute_forces env model r v av).F_grav +
      (compute_forces env model r v av).F_side := rfl

lemma compute_forces_Acc (env : Environment) (model : Model) (r : Quat)
    (v av : V3) : (compute_forces env model r v av).Acc =
      (compute_forces env model r v av).F_total.sdiv model.mass := rfl

lemma compute_torques_forces (env : Environment) (model : Model) (v av : V3)
    (r : Quat) (res : ForcesRes) :
    (compute_torques env model v av r res).forces = res := rfl

lemma compute_torques_amplitude (env : Environment) (model : Model) (v av : V3)
    (r : Quat) (res : ForcesRes) :
    (compute_torques env model v av r res).torque_amplitude =
      0.5 * env.air_density * v.dot v * model.diameter * model.area := rfl

lemma compute_torques_T (env : Environment) (model : Model) (v av : V3)
    (r : Quat) (res : ForcesRes) :
    (compute_torques env model v av r res).T =
      compute_wobble_precession model av
        (0.5 * env.air_density * v.dot v * model.diameter * model.area) := rfl

lemma compute_torques_dq (env : Environment) (model : Model) (v av : V3)
    (r : Quat) (res : ForcesRes) :
    (compute_torques env model v av r res).dq =
      (let w := combined_w env model v av res
       let wquat :=
         if math_isclose 0 w.norm then (⟨0, 0, 0, 1⟩ : Quat)
         else Quat.hmul (Quat.normalize ⟨w.x, w.y, w.z, 0⟩) r
       (⟨wquat.x * w.norm / 2, wquat.y * w.norm / 2,
         wquat.z * w.norm / 2, wquat.w * w.norm / 2⟩ : Quat)) := rfl

lemma compute_wobble_precession_eq (model : Model) (av : V3) (torque : ℝ) :
    compute_wobble_precession model av torque =
      V3.scale ⟨av.x * model.dampening_factor / model.I_xx,
        av.y * model.dampening_factor / model.I_xx,
        av.z * model.dampening_z / model.I_zz⟩ torque +
      ((model.I_zz - model.I_xx) / model.I_xx * 2 * av.z) •
        (⟨-av.y, av.x, 0⟩ : V3) := rfl

/-! ## Shared evaluation helpers -/

/-- With every aerodynamic coefficient identically zero and gravity
magnitude zero, all four accumulated forces vanish, so the total force
is exactly zero. -/
lemma forces_total_zero (env : Environment) (model : Model) (r : Quat)
    (v av : V3) (hL : model.C_lift = fun _ => 0) (hD : model.C_drag = fun _ => 0)
    (hS : model.C_side = fun _ _ _ => 0) (hg : env.g = 0) :
    (compute_forces env model r v av).F_total = 0 := by
  rw [compute_forces_F_total, compute_forces_F_lift, compute_forces_F_drag,
    compute_forces_F_grav, compute_forces_F_side, hL, hD, hS, hg]
  simp

/-- With both damping scalars zero, the angular acceleration reduces to
the gyroscopic precession self-coupling term. -/
lemma wobble_precession_no_damp (model : Model) (av : V3) (torque : ℝ)
    (hd : model.dampening_factor = 0) (hdz : model.dampening_z = 0) :
    compute_wobble_precession model av torque =
      ((model.I_zz - model.I_xx) / model.I_xx * 2 * av.z) •
        (⟨-av.y, av.x, 0⟩ : V3) := by
  rw [compute_wobble_precession_eq, hd, hdz]
  simp [V3.scale]

/-- With the two moment coefficients identically zero, the precession
contribution vanishes and the combined angular rate is the wobble
vector alone. -/
lemma combined_w_zero_coeffs (env : Environment) (model : Model) (v av : V3)
    (res : ForcesRes) (hX : model.C_x = fun _ _ _ => 0)
    (hY : model.C_y = fun _ => 0) :
    combined_w env model v av res = res.inter.w := by
  unfold combined_w
  rw [hX, hY]
  ext <;> simp [V3.sdiv]

/-- When the combined angular-rate vector is zero, the quaternion
derivative entry is the zero quaternion (identity rotation scaled by a
zero half-rate). -/
lemma dq_of_combined_w_zero (env : Environment) (model : Model) (v av : V3)
    (r : Quat) (res : ForcesRes) (h : combined_w env model v av res = 0) :
    (compute_torques env model v av r res).dq = ⟨0, 0, 0, 0⟩ := by
  rw [compute_torques_dq]
  simp only [h, V3.zero_def]
  rw [if_pos (by simp [V3.norm, V3.dot]; exact math_isclose_zero_zero)]
  simp [V3.norm, V3.dot]

/-- When the combined angular-rate vector is nonzero, the quaternion
derivative entry is half the Hamilton product of the pure velocity
quaternion with the orientation quaternion: the normalization performed
by Rotation.from_quat cancels against the w_norm factor. -/
lemma dq_of_combined_w_ne_zero (env : Environment) (model : Model) (v av : V3)
    (r : Quat) (res : ForcesRes) (h : combined_w env model v av res ≠ 0) :
    (compute_torques env model v av r res).dq =
      (let w := combined_w env model v av res
       let h := Quat.hmul ⟨w.x, w.y, w.z, 0⟩ r
       (⟨h.x / 2, h.y / 2, h.z / 2, h.w / 2⟩ : Quat)) := by
  rw [compute_torques_dq]
  simp only []
  set w := combined_w env model v av res with hw
  have hn : w.norm ≠ 0 := fun hc => h ((V3.norm_eq_zero_iff w).mp hc)
  rw [if_neg (fun hcl => hn ((math_isclose_zero_iff w.norm (V3.norm_nonneg w)).mp hcl))]
  ext <;> simp only [Quat.hmul, Quat.normalize, Quat.qnorm_pure] <;> field_simp

/-- With the identity orientation quaternion, the in-plane velocity
residual simply zeroes the vertical component. -/
lemma vInPlaneOf_identity (v : V3) :
    vInPlaneOf ⟨0, 0, 0, 1⟩ v = ⟨v.x, v.y, 0⟩ := by
  unfold vInPlaneOf
  rw [Quat.rotApply_identity]
  ext <;> simp [V3.dot, V3.scale]

/-- The in-plane residual is orthogonal to the disc normal whenever the
disc normal is a unit vector. -/
lemma vInPlaneOf_dot_zhat (r : Quat) (v : V3)
    (hzz : (r.rotApply ⟨0, 0, 1⟩).dot (r.rotApply ⟨0, 0, 1⟩) = 1) :
    (vInPlaneOf r v).dot (r.rotApply ⟨0, 0, 1⟩) = 0 := by
  unfold vInPlaneOf
  rw [V3.sub_dot, V3.scale_dot, hzz, mul_one, sub_self]

/-- The image of the reference up axis under the rotation of a unit
quaternion is a unit vector: the third column of the rotation matrix
has unit norm when the quaternion is normalized. -/
lemma zhat_dot_self (r : Quat) (h1 : r.normSq = 1) :
    (r.rotApply ⟨0, 0, 1⟩).dot (r.rotApply ⟨0, 0, 1⟩) = 1 := by
  simp only [Quat.rotApply, V3.dot]
  simp only [Quat.normSq] at h1
  linear_combination (4 * (r.x * r.x + r.y * r.y)) * h1

/-! ## Claim C1 -/

/-- Claim C1, counterexample: at a state whose velocity is identically
zero (so both the velocity norm and the in-plane component vanish), the
derivative evaluation does not signal any domain error; it performs the
unguarded normalizing divisions and returns an ordinary derivative
vector. -/
theorem c1_counterexample :
    compute_derivatives envA modelA 0 coordsV0 =
      Except.ok [0, 0, 0, 0, 0, 0, 0, 0, 0, 0, 0, 0, 0] := by
  have hAcc : (compute_forces envA modelA ⟨0, 0, 0, 1⟩ ⟨0, 0, 0⟩ ⟨0, 0, 1⟩).Acc = 0 := by
    rw [compute_forces_Acc,
      forces_total_zero envA modelA ⟨0, 0, 0, 1⟩ ⟨0, 0, 0⟩ ⟨0, 0, 1⟩ rfl rfl rfl rfl]
    ext <;> simp [V3.sdiv]
  have hdq : (compute_torques envA modelA ⟨0, 0, 0⟩ ⟨0, 0, 1⟩ ⟨0, 0, 0, 1⟩
      (compute_forces envA modelA ⟨0, 0, 0, 1⟩ ⟨0, 0, 0⟩ ⟨0, 0, 1⟩)).dq = ⟨0, 0, 0, 0⟩ := by
    apply dq_of_combined_w_zero
    rw [combined_w_zero_coeffs envA modelA _ _ _ rfl rfl, compute_forces_inter, ciq_w]
    rw [Quat.rotApply_identity]
    ext <;> simp
  have hT : (compute_torques envA modelA ⟨0, 0, 0⟩ ⟨0, 0, 1⟩ ⟨0, 0, 0, 1⟩
      (compute_forces envA modelA ⟨0, 0, 0, 1⟩ ⟨0, 0, 0⟩ ⟨0, 0, 1⟩)).T = 0 := by
    rw [compute_torques_T, wobble_precession_no_damp modelA _ _ rfl rfl]
    ext <;> simp
  simp only [compute_derivatives, coordsV0]
  rw [if_neg (by norm_num [Quat.normSq] : ¬Quat.normSq ⟨(0 : ℝ), 0, 0, 1⟩ = 0)]
  rw [Quat.normalize_identity, hAcc, hdq, hT]
  simp

/-- Claim C1, amended: on degenerate-geometry states (zero velocity or a
vanishing in-plane component) the derivative entry point does not signal
a domain error: as long as the state quaternion is nonzero (the only
condition that raises), evaluation returns an ordinary Except.ok
payload, the degeneracy flowing silently through the unguarded
divisions. -/
theorem c1_theorem (env : Environment) (model : Model) (t : ℝ) (c : Coordinates)
    (hq : Quat.normSq ⟨c.qx, c.qy, c.qz, c.qw⟩ ≠ 0)
    (hdeg : (⟨c.vx, c.vy, c.vz⟩ : V3) = 0 ∨
      vInPlaneOf (Quat.normalize ⟨c.qx, c.qy, c.qz, c.qw⟩) ⟨c.vx, c.vy, c.vz⟩ = 0) :
    ∃ out : List ℝ, compute_derivatives env model t c = Except.ok out := by
  simp only [compute_derivatives, if_neg hq]
  exact ⟨_, rfl⟩

/-- Claim C1, witness: the amended theorem applied at the concrete
zero-velocity state. -/
theorem c1_theorem_witness :
    Quat.normSq ⟨coordsV0.qx, coordsV0.qy, coordsV0.qz, coordsV0.qw⟩ ≠ 0 ∧
    (⟨coordsV0.vx, coordsV0.vy, coordsV0.vz⟩ : V3) = 0 ∧
    ∃ out : List ℝ, compute_derivatives envA modelA 0 coordsV0 = Except.ok out := by
  have h1 : Quat.normSq ⟨coordsV0.qx, coordsV0.qy, coordsV0.qz, coordsV0.qw⟩ ≠ 0 := by
    norm_num [coordsV0, Quat.normSq]
  have h2 : (⟨coordsV0.vx, coordsV0.vy, coordsV0.vz⟩ : V3) = 0 := rfl
  exact ⟨h1, h2, c1_theorem envA modelA 0 coordsV0 h1 (Or.inl h2)⟩

/-! ## Claim C2 -/

/-- Claim C2, counterexample: at a state whose spin rate dgamma is zero,
the torque computation does not signal a zero-spin domain error; the
whole evaluation performs the division by I_zz * dgamma = 0 unguarded
and returns an ordinary derivative vector. -/
theorem c2_counterexample :
    compute_derivatives envA modelA 0 coordsS0 =
      Except.ok [1, 0, 0, 0, 0, 0, 0, 0, 0, 0, 0, 0, 0] := by
  have hAcc : (compute_forces envA modelA ⟨0, 0, 0, 1⟩ ⟨1, 0, 0⟩ ⟨0, 0, 0⟩).Acc = 0 := by
    rw [compute_forces_Acc,
      forces_total_zero envA modelA ⟨0, 0, 0, 1⟩ ⟨1, 0, 0⟩ ⟨0, 0, 0⟩ rfl rfl rfl rfl]
    ext <;> simp [V3.sdiv]
  have hdq : (compute_torques envA modelA ⟨1, 0, 0⟩ ⟨0, 0, 0⟩ ⟨0, 0, 0, 1⟩
      (compute_forces envA modelA ⟨0, 0, 0, 1⟩ ⟨1, 0, 0⟩ ⟨0, 0, 0⟩)).dq = ⟨0, 0, 0, 0⟩ := by
    apply dq_of_combined_w_zero
    rw [combined_w_zero_coeffs envA modelA _ _ _ rfl rfl, compute_forces_inter, ciq_w]
    rw [Quat.rotApply_identity]
    ext <;> simp
  have hT : (compute_torques envA modelA ⟨1, 0, 0⟩ ⟨0, 0, 0⟩ ⟨0, 0, 0, 1⟩
      (compute_forces envA modelA ⟨0, 0, 0, 1⟩ ⟨1, 0, 0⟩ ⟨0, 0, 0⟩)).T = 0 := by
    rw [compute_torques_T, wobble_precession_no_damp modelA _ _ rfl rfl]
    ext <;> simp
  simp only [compute_derivatives, coordsS0]
  rw [if_neg (by norm_num [Quat.normSq] : ¬Quat.normSq ⟨(0 : ℝ), 0, 0, 1⟩ = 0)]
  rw [Quat.normalize_identity, hAcc, hdq, hT]
  simp

/-- Claim C2, amended: a zero spin rate dgamma is not signaled: whenever
the state quaternion is nonzero, the derivative entry point returns an
ordinary Except.ok payload even though the roll and pitch moments are
divided by I_zz * dgamma = 0 on the way. -/
theorem c2_theorem (env : Environment) (model : Model) (t : ℝ) (c : Coordinates)
    (hq : Quat.normSq ⟨c.qx, c.qy, c.qz, c.qw⟩ ≠ 0) (hspin : c.dgamma = 0) :
    ∃ out : List ℝ, compute_derivatives env model t c = Except.ok out := by
  simp only [compute_derivatives, if_neg hq]
  exact ⟨_, rfl⟩

/-- Claim C2, witness: the amended theorem applied at the concrete
zero-spin state. -/
theorem c2_theorem_witness :
    Quat.normSq ⟨coordsS0.qx, coordsS0.qy, coordsS0.qz, coordsS0.qw⟩ ≠ 0 ∧
    coordsS0.dgamma = 0 ∧
    ∃ out : List ℝ, compute_derivatives envA modelA 0 coordsS0 = Except.ok out := by
  have h1 : Quat.normSq ⟨coordsS0.qx, coordsS0.qy, coordsS0.qz, coordsS0.qw⟩ ≠ 0 := by
    norm_num [coordsS0, Quat.normSq]
  exact ⟨h1, rfl, c2_theorem envA modelA 0 coordsS0 h1 rfl⟩

/-! ## Claim C3 -/

/-- Claim C3: with q = 0.5 * air_density * (velocity dot velocity) * area,
the force accumulator returns the lift force C_lift(aoa) * q * (vhat
cross yhat), the side force C_side(aoa, v_norm, dgamma) * q * yhat, the
drag force C_drag(aoa) * q * (-vhat), the gravity force mass * g *
gravity_direction, the total force equal to the sum of these four, and
the linear acceleration equal to the total force divided by the mass. -/
theorem c3_theorem (env : Environment) (model : Model) (r : Quat) (v av : V3)
    (hv : v ≠ 0) (hip : vInPlaneOf r v ≠ 0) :
    (compute_forces env model r v av).F_lift =
      (model.C_lift (calculate_intermediate_quantities r v av).angle_of_attack *
        (0.5 * env.air_density * v.dot v * model.area)) •
        ((v.sdiv v.norm).cross (calculate_intermediate_quantities r v av).yhat) ∧
    (compute_forces env model r v av).F_side =
      (model.C_side (calculate_intermediate_quantities r v av).angle_of_attack
          v.norm av.z * (0.5 * env.air_density * v.dot v * model.area)) •
        (calculate_intermediate_quantities r v av).yhat ∧
    (compute_forces env model r v av).F_drag =
      (model.C_drag (calculate_intermediate_quantities r v av).angle_of_attack *
        (0.5 * env.air_density * v.dot v * model.area)) • (-(v.sdiv v.norm)) ∧
    (compute_forces env model r v av).F_grav =
      (model.mass * env.g) • env.grav_vector ∧
    (compute_forces env model r v av).F_total =
      (compute_forces env model r v av).F_lift +
      (compute_forces env model r v av).F_side +
      (compute_forces env model r v av).F_drag +
      (compute_forces env model r v av).F_grav ∧
    (compute_forces env model r v av).Acc =
      (compute_forces env model r v av).F_total.sdiv model.mass := by
  refine ⟨compute_forces_F_lift env model r v av,
    compute_forces_F_side env model r v av,
    compute_forces_F_drag env model r v av,
    compute_forces_F_grav env model r v av, ?_,
    compute_forces_Acc env model r v av⟩
  rw [compute_forces_F_total]
  ext <;> simp only [V3.add_def] <;> ring

/-- Claim C3, witness: the theorem applied at the identity orientation
with velocity (1,0,0). -/
theorem c3_theorem_witness :
    (⟨1, 0, 0⟩ : V3) ≠ 0 ∧
    vInPlaneOf ⟨0, 0, 0, 1⟩ ⟨1, 0, 0⟩ ≠ 0 ∧
    ((compute_forces envA modelA ⟨0, 0, 0, 1⟩ ⟨1, 0, 0⟩ ⟨0, 0, 1⟩).F_lift =
      (modelA.C_lift (calculate_intermediate_quantities ⟨0, 0, 0, 1⟩ ⟨1, 0, 0⟩
          ⟨0, 0, 1⟩).angle_of_attack *
        (0.5 * envA.air_density * V3.dot ⟨1, 0, 0⟩ ⟨1, 0, 0⟩ * modelA.area)) •
        ((V3.sdiv ⟨1, 0, 0⟩ (V3.norm ⟨1, 0, 0⟩)).cross
          (calculate_intermediate_quantities ⟨0, 0, 0, 1⟩ ⟨1, 0, 0⟩ ⟨0, 0, 1⟩).yhat) ∧
    (compute_forces envA modelA ⟨0, 0, 0, 1⟩ ⟨1, 0, 0⟩ ⟨0, 0, 1⟩).F_side =
      (modelA.C_side (calculate_intermediate_quantities ⟨0, 0, 0, 1⟩ ⟨1, 0, 0⟩
          ⟨0, 0, 1⟩).angle_of_attack (V3.norm ⟨1, 0, 0⟩) (V3.z ⟨0, 0, 1⟩) *
        (0.5 * envA.air_density * V3.dot ⟨1, 0, 0⟩ ⟨1, 0, 0⟩ * modelA.area)) •
        (calculate_intermediate_quantities ⟨0, 0, 0, 1⟩ ⟨1, 0, 0⟩ ⟨0, 0, 1⟩).yhat ∧
    (compute_forces envA modelA ⟨0, 0, 0, 1⟩ ⟨1, 0, 0⟩ ⟨0, 0, 1⟩).F_drag =
      (modelA.C_drag (calculate_intermediate_quantities ⟨0, 0, 0, 1⟩ ⟨1, 0, 0⟩
          ⟨0, 0, 1⟩).angle_of_attack *
        (0.5 * envA.air_density * V3.dot ⟨1, 0, 0⟩ ⟨1, 0, 0⟩ * modelA.area)) •
        (-(V3.sdiv ⟨1, 0, 0⟩ (V3.norm ⟨1, 0, 0⟩))) ∧
    (compute_forces envA modelA ⟨0, 0, 0, 1⟩ ⟨1, 0, 0⟩ ⟨0, 0, 1⟩).F_grav =
      (modelA.mass * envA.g) • envA.grav_vector ∧
    (compute_forces envA modelA ⟨0, 0, 0, 1⟩ ⟨1, 0, 0⟩ ⟨0, 0, 1⟩).F_total =
      (compute_forces envA modelA ⟨0, 0, 0, 1⟩ ⟨1, 0, 0⟩ ⟨0, 0, 1⟩).F_lift +
      (compute_forces envA modelA ⟨0, 0, 0, 1⟩ ⟨1, 0, 0⟩ ⟨0, 0, 1⟩).F_side +
      (compute_forces envA modelA ⟨0, 0, 0, 1⟩ ⟨1, 0, 0⟩ ⟨0, 0, 1⟩).F_drag +
      (compute_forces envA modelA ⟨0, 0, 0, 1⟩ ⟨1, 0, 0⟩ ⟨0, 0, 1⟩).F_grav ∧
    (compute_forces envA modelA ⟨0, 0, 0, 1⟩ ⟨1, 0, 0⟩ ⟨0, 0, 1⟩).Acc =
      (compute_forces envA modelA ⟨0, 0, 0, 1⟩
        ⟨1, 0, 0⟩ ⟨0, 0, 1⟩).F_total.sdiv modelA.mass) := by
  have h1 : (⟨1, 0, 0⟩ : V3) ≠ 0 := by
    intro h
    exact one_ne_zero (congrArg V3.x h)
  have h2 : vInPlaneOf ⟨0, 0, 0, 1⟩ ⟨1, 0, 0⟩ ≠ 0 := by
    rw [vInPlaneOf_identity]
    intro h
    exact one_ne_zero (congrArg V3.x h)
  exact ⟨h1, h2, c3_theorem envA modelA ⟨0, 0, 0, 1⟩ ⟨1, 0, 0⟩ ⟨0, 0, 1⟩ h1 h2⟩

/-! ## Claim C4 -/

/-- Claim C4, counterexample: a combined angular-rate vector of norm
1e-12, three orders of magnitude below the 1e-9 relative tolerance
constant the guard names, is still not flagged by math.isclose(0, norm)
with the default abs_tol of 0; the quaternion derivative is produced by
the general composition branch, (norm/2, 0, 0, 0) here, and not by the
identity-rotation branch, which would give (0, 0, 0, norm/2). -/
theorem c4_counterexample :
    combined_w envA modelA ⟨1, 0, 0⟩ ⟨1 / 1000000000000, 0, 1⟩
        (compute_forces envA modelA ⟨0, 0, 0, 1⟩ ⟨1, 0, 0⟩
          ⟨1 / 1000000000000, 0, 1⟩) = ⟨1 / 1000000000000, 0, 0⟩ ∧
    (⟨1 / 1000000000000, 0, 0⟩ : V3).norm = 1 / 1000000000000 ∧
    (1 / 1000000000000 : ℝ) < 1 / 1000000000 ∧
    ¬ math_isclose 0 (1 / 1000000000000 : ℝ) ∧
    (compute_torques envA modelA ⟨1, 0, 0⟩ ⟨1 / 1000000000000, 0, 1⟩ ⟨0, 0, 0, 1⟩
        (compute_forces envA modelA ⟨0, 0, 0, 1⟩ ⟨1, 0, 0⟩
          ⟨1 / 1000000000000, 0, 1⟩)).dq = ⟨1 / 2000000000000, 0, 0, 0⟩ ∧
    (⟨1 / 2000000000000, 0, 0, 0⟩ : Quat) ≠ ⟨0, 0, 0, 1 / 2000000000000⟩ := by
  have hW : combined_w envA modelA ⟨1, 0, 0⟩ ⟨1 / 1000000000000, 0, 1⟩
      (compute_forces envA modelA ⟨0, 0, 0, 1⟩ ⟨1, 0, 0⟩
        ⟨1 / 1000000000000, 0, 1⟩) = ⟨1 / 1000000000000, 0, 0⟩ := by
    rw [combined_w_zero_coeffs envA modelA _ _ _ rfl rfl, compute_forces_inter,
      ciq_w, Quat.rotApply_identity]
  have hWnorm : (⟨1 / 1000000000000, 0, 0⟩ : V3).norm = 1 / 1000000000000 := by
    have hdd : (⟨1 / 1000000000000, 0, 0⟩ : V3).dot ⟨1 / 1000000000000, 0, 0⟩ =
        (1 / 1000000000000 : ℝ) ^ 2 := by
      simp [V3.dot]
      ring
    rw [V3.norm, hdd, Real.sqrt_sq (by norm_num : (0 : ℝ) ≤ 1 / 1000000000000)]
  have hWne : combined_w envA modelA ⟨1, 0, 0⟩ ⟨1 / 1000000000000, 0, 1⟩
      (compute_forces envA modelA ⟨0, 0, 0, 1⟩ ⟨1, 0, 0⟩
        ⟨1 / 1000000000000, 0, 1⟩) ≠ 0 := by
    rw [hW]
    intro h
    have hx := congrArg V3.x h
    simp only [V3.zero_def] at hx
    norm_num at hx
  have hdq := dq_of_combined_w_ne_zero envA modelA ⟨1, 0, 0⟩
    ⟨1 / 1000000000000, 0, 1⟩ ⟨0, 0, 0, 1⟩
    (compute_forces envA modelA ⟨0, 0, 0, 1⟩ ⟨1, 0, 0⟩ ⟨1 / 1000000000000, 0, 1⟩)
    hWne
  refine ⟨hW, hWnorm, by norm_num, ?_, ?_, ?_⟩
  · rw [math_isclose_zero_iff _ (by norm_num)]
    norm_num
  · rw [hdq]
    simp only [hW, hWnorm, Quat.hmul]
    ext <;> simp <;> norm_num
  · intro h
    have := congrArg Quat.x h
    norm_num at this

/-- Claim C4, amended: the branch guard math.isclose(0, w_norm), with
the default rel_tol 1e-9 and abs_tol 0, holds for the nonnegative norm
exactly when the norm is zero, so the comparison is effectively exact;
when it holds the derivative is the identity rotation scaled to a zero
rate, and otherwise the derivative is half the Hamilton product of the
pure scalar-last velocity quaternion (w_x, w_y, w_z, 0) with the
orientation quaternion, realizing dq/dt = (1/2) w times q. -/
theorem c4_theorem (env : Environment) (model : Model) (v av : V3) (r : Quat)
    (res : ForcesRes) :
    (math_isclose 0 (combined_w env model v av res).norm ↔
      (combined_w env model v av res).norm = 0) ∧
    (compute_torques env model v av r res).dq =
      (if (combined_w env model v av res).norm = 0 then (⟨0, 0, 0, 0⟩ : Quat)
       else
        ⟨(Quat.hmul ⟨(combined_w env model v av res).x,
            (combined_w env model v av res).y,
            (combined_w env model v av res).z, 0⟩ r).x / 2,
         (Quat.hmul ⟨(combined_w env model v av res).x,
            (combined_w env model v av res).y,
            (combined_w env model v av res).z, 0⟩ r).y / 2,
         (Quat.hmul ⟨(combined_w env model v av res).x,
            (combined_w env model v av res).y,
            (combined_w env model v av res).z, 0⟩ r).z / 2,
         (Quat.hmul ⟨(combined_w env model v av res).x,
            (combined_w env model v av res).y,
            (combined_w env model v av res).z, 0⟩ r).w / 2⟩) := by
  refine ⟨math_isclose_zero_iff _ (V3.norm_nonneg _), ?_⟩
  by_cases h : (combined_w env model v av res).norm = 0
  · rw [if_pos h,
      dq_of_combined_w_zero env model v av r res ((V3.norm_eq_zero_iff _).mp h)]
  · rw [if_neg h,
      dq_of_combined_w_ne_zero env model v av r res
        (fun hc => h (by rw [hc, V3.norm_zero_vec]))]

/-! ## Claim C5 -/

/-- Claim C5, counterexample: with every aerodynamic coefficient and
both damping scalars zero and gravity magnitude zero, the torque
amplitude does not evaluate to zero: it is 0.5 * 2 * 1 * 1 * 1 = 1 for
velocity (1,0,0), because it never depends on the coefficients. -/
theorem c5_counterexample :
    (compute_torques envA modelA ⟨1, 0, 0⟩ ⟨0, 0, 1⟩ ⟨0, 0, 0, 1⟩
      (compute_forces envA modelA ⟨0, 0, 0, 1⟩ ⟨1, 0, 0⟩
        ⟨0, 0, 1⟩)).torque_amplitude ≠ 0 := by
  rw [compute_torques_amplitude]
  norm_num [envA, modelA, V3.dot]

/-- Claim C5, amended: with all five aerodynamic coefficient functions,
both damping scalars, and the gravity magnitude zero, the total force is
exactly zero and the angular acceleration T reduces to the pure
gyroscopic precession self-coupling term 2 wz (I_zz - I_xx)/I_xx
(-wy, wx, 0); the torque amplitude, however, stays equal to
0.5 * air_density * (v dot v) * diameter * area, which is nonzero for
generic nonzero velocity. -/
theorem c5_theorem (env : Environment) (model : Model) (r : Quat) (v av : V3)
    (hL : model.C_lift = fun _ => 0) (hD : model.C_drag = fun _ => 0)
    (hS : model.C_side = fun _ _ _ => 0) (hX : model.C_x = fun _ _ _ => 0)
    (hY : model.C_y = fun _ => 0) (hd : model.dampening_factor = 0)
    (hdz : model.dampening_z = 0) (hg : env.g = 0) :
    (compute_forces env model r v av).F_total = 0 ∧
    (compute_torques env model v av r (compute_forces env model r v av)).T =
      ((model.I_zz - model.I_xx) / model.I_xx * 2 * av.z) •
        (⟨-av.y, av.x, 0⟩ : V3) ∧
    (compute_torques env model v av r
        (compute_forces env model r v av)).torque_amplitude =
      0.5 * env.air_density * v.dot v * model.diameter * model.area := by
  refine ⟨forces_total_zero env model r v av hL hD hS hg, ?_,
    compute_torques_amplitude env model v av r (compute_forces env model r v av)⟩
  rw [compute_torques_T, wobble_precession_no_damp model av _ hd hdz]

/-- Claim C5, witness: the amended theorem applied at the concrete
zero-coefficient Environment and Model with velocity (1,0,0) and
angular velocity (0,0,1). -/
theorem c5_theorem_witness :
    modelA.C_lift = (fun _ => 0) ∧ modelA.C_drag = (fun _ => 0) ∧
    modelA.C_side = (fun _ _ _ => 0) ∧ modelA.C_x = (fun _ _ _ => 0) ∧
    modelA.C_y = (fun _ => 0) ∧ modelA.dampening_factor = 0 ∧
    modelA.dampening_z = 0 ∧ envA.g = 0 ∧
    ((compute_forces envA modelA ⟨0, 0, 0, 1⟩ ⟨1, 0, 0⟩ ⟨0, 0, 1⟩).F_total = 0 ∧
     (compute_torques envA modelA ⟨1, 0, 0⟩ ⟨0, 0, 1⟩ ⟨0, 0, 0, 1⟩
        (compute_forces envA modelA ⟨0, 0, 0, 1⟩ ⟨1, 0, 0⟩ ⟨0, 0, 1⟩)).T =
      ((modelA.I_zz - modelA.I_xx) / modelA.I_xx * 2 * V3.z ⟨0, 0, 1⟩) •
        (⟨-V3.y ⟨0, 0, 1⟩, V3.x ⟨0, 0, 1⟩, 0⟩ : V3) ∧
     (compute_torques envA modelA ⟨1, 0, 0⟩ ⟨0, 0, 1⟩ ⟨0, 0, 0, 1⟩
        (compute_forces envA modelA ⟨0, 0, 0, 1⟩
          ⟨1, 0, 0⟩ ⟨0, 0, 1⟩)).torque_amplitude =
      0.5 * envA.air_density * V3.dot ⟨1, 0, 0⟩ ⟨1, 0, 0⟩ * modelA.diameter *
        modelA.area) :=
  ⟨rfl, rfl, rfl, rfl, rfl, rfl, rfl, rfl,
    c5_theorem envA modelA ⟨0, 0, 0, 1⟩ ⟨1, 0, 0⟩ ⟨0, 0, 1⟩
      rfl rfl rfl rfl rfl rfl rfl rfl⟩

/-! ## Claim C6 -/

/-- Claim C6: for a unit orientation quaternion and a velocity with
nonzero in-plane residual, the resolver basis xhat, yhat, zhat is
orthonormal: each vector has unit norm and the pairwise inner products
vanish. -/
theorem c6_theorem (r : Quat) (v av : V3) (h1 : r.normSq = 1)
    (h2 : vInPlaneOf r v ≠ 0) :
    (calculate_intermediate_quantities r v av).xhat.norm = 1 ∧
    (calculate_intermediate_quantities r v av).yhat.norm = 1 ∧
    (calculate_intermediate_quantities r v av).zhat.norm = 1 ∧
    (calculate_intermediate_quantities r v av).xhat.dot
      (calculate_intermediate_quantities r v av).yhat = 0 ∧
    (calculate_intermediate_quantities r v av).xhat.dot
      (calculate_intermediate_quantities r v av).zhat = 0 ∧
    (calculate_intermediate_quantities r v av).yhat.dot
      (calculate_intermediate_quantities r v av).zhat = 0 := by
  have hzz := zhat_dot_self r h1
  have hPZ := vInPlaneOf_dot_zhat r v hzz
  have hd0 : (vInPlaneOf r v).dot (vInPlaneOf r v) ≠ 0 :=
    fun hc => h2 ((V3.dot_self_eq_zero _).mp hc)
  have hn2 : (vInPlaneOf r v).norm * (vInPlaneOf r v).norm =
      (vInPlaneOf r v).dot (vInPlaneOf r v) := V3.mul_self_norm _
  have hxx : ((vInPlaneOf r v).sdiv (vInPlaneOf r v).norm).dot
      ((vInPlaneOf r v).sdiv (vInPlaneOf r v).norm) = 1 := by
    rw [V3.sdiv_dot_sdiv, hn2, div_self hd0]
  have hxz : ((vInPlaneOf r v).sdiv (vInPlaneOf r v).norm).dot
      (r.rotApply ⟨0, 0, 1⟩) = 0 := by
    rw [V3.sdiv_dot, hPZ, zero_div]
  have hzx : (r.rotApply ⟨0, 0, 1⟩).dot
      ((vInPlaneOf r v).sdiv (vInPlaneOf r v).norm) = 0 := by
    rw [V3.dot_comm]
    exact hxz
  have hyy : ((r.rotApply ⟨0, 0, 1⟩).cross
        ((vInPlaneOf r v).sdiv (vInPlaneOf r v).norm)).dot
      ((r.rotApply ⟨0, 0, 1⟩).cross
        ((vInPlaneOf r v).sdiv (vInPlaneOf r v).norm)) = 1 := by
    rw [V3.cross_dot_self, hzz, hxx, hzx]
    norm_num
  refine ⟨?_, ?_, ?_, ?_, ?_, ?_⟩
  · rw [ciq_xhat, V3.norm, hxx, Real.sqrt_one]
  · rw [ciq_yhat, V3.norm, hyy, Real.sqrt_one]
  · rw [ciq_zhat, V3.norm, hzz, Real.sqrt_one]
  · rw [ciq_xhat, ciq_yhat, V3.dot_comm]
    exact V3.cross_dot_right _ _
  · rw [ciq_xhat, ciq_zhat]
    exact hxz
  · rw [ciq_yhat, ciq_zhat]
    exact V3.cross_dot_left _ _

/-- Claim C6, witness: the theorem applied at the identity orientation,
velocity (1,0,0), angular velocity (0,0,1). -/
theorem c6_theorem_witness :
    Quat.normSq ⟨0, 0, 0, 1⟩ = 1 ∧
    vInPlaneOf ⟨0, 0, 0, 1⟩ ⟨1, 0, 0⟩ ≠ 0 ∧
    ((calculate_intermediate_quantities ⟨0, 0, 0, 1⟩ ⟨1, 0, 0⟩ ⟨0, 0, 1⟩).xhat.norm = 1 ∧
     (calculate_intermediate_quantities ⟨0, 0, 0, 1⟩ ⟨1, 0, 0⟩ ⟨0, 0, 1⟩).yhat.norm = 1 ∧
     (calculate_intermediate_quantities ⟨0, 0, 0, 1⟩ ⟨1, 0, 0⟩ ⟨0, 0, 1⟩).zhat.norm = 1 ∧
     (calculate_intermediate_quantities ⟨0, 0, 0, 1⟩ ⟨1, 0, 0⟩ ⟨0, 0, 1⟩).xhat.dot
       (calculate_intermediate_quantities ⟨0, 0, 0, 1⟩ ⟨1, 0, 0⟩ ⟨0, 0, 1⟩).yhat = 0 ∧
     (calculate_intermediate_quantities ⟨0, 0, 0, 1⟩ ⟨1, 0, 0⟩ ⟨0, 0, 1⟩).xhat.dot
       (calculate_intermediate_quantities ⟨0, 0, 0, 1⟩ ⟨1, 0, 0⟩ ⟨0, 0, 1⟩).zhat = 0 ∧
     (calculate_intermediate_quantities ⟨0, 0, 0, 1⟩ ⟨1, 0, 0⟩ ⟨0, 0, 1⟩).yhat.dot
       (calculate_intermediate_quantities ⟨0, 0, 0, 1⟩ ⟨1, 0, 0⟩ ⟨0, 0, 1⟩).zhat = 0) := by
  have h1 : Quat.normSq ⟨0, 0, 0, 1⟩ = 1 := by norm_num [Quat.normSq]
  have h2 : vInPlaneOf ⟨0, 0, 0, 1⟩ ⟨1, 0, 0⟩ ≠ 0 := by
    rw [vInPlaneOf_identity]
    intro h
    exact one_ne_zero (congrArg V3.x h)
  exact ⟨h1, h2, c6_theorem ⟨0, 0, 0, 1⟩ ⟨1, 0, 0⟩ ⟨0, 0, 1⟩ h1 h2⟩

/-! ## Claim C7 -/

/-- Claim C7: the resolver angle of attack equals minus the arctangent
of the velocity component along the disc normal divided by the norm of
the in-plane residual; in particular it is exactly zero whenever the
velocity is purely in-plane. -/
theorem c7_theorem (r : Quat) (v av : V3) (hip : vInPlaneOf r v ≠ 0) :
    (calculate_intermediate_quantities r v av).angle_of_attack =
      -Real.arctan (v.dot (r.rotApply ⟨0, 0, 1⟩) / (vInPlaneOf r v).norm) ∧
    (v.dot (r.rotApply ⟨0, 0, 1⟩) = 0 →
      (calculate_intermediate_quantities r v av).angle_of_attack = 0) := by
  refine ⟨ciq_aoa r v av, fun h => ?_⟩
  rw [ciq_aoa, h, zero_div, Real.arctan_zero, neg_zero]

/-- Claim C7, witness: the theorem applied at the identity orientation
with the purely in-plane velocity (1,0,0). -/
theorem c7_theorem_witness :
    vInPlaneOf ⟨0, 0, 0, 1⟩ ⟨1, 0, 0⟩ ≠ 0 ∧
    V3.dot ⟨1, 0, 0⟩ (Quat.rotApply ⟨0, 0, 0, 1⟩ ⟨0, 0, 1⟩) = 0 ∧
    (calculate_intermediate_quantities ⟨0, 0, 0, 1⟩ ⟨1, 0, 0⟩
      ⟨0, 0, 1⟩).angle_of_attack = 0 := by
  have h1 : vInPlaneOf ⟨0, 0, 0, 1⟩ ⟨1, 0, 0⟩ ≠ 0 := by
    rw [vInPlaneOf_identity]
    intro h
    exact one_ne_zero (congrArg V3.x h)
  have h2 : V3.dot ⟨1, 0, 0⟩ (Quat.rotApply ⟨0, 0, 0, 1⟩ ⟨0, 0, 1⟩) = 0 := by
    rw [Quat.rotApply_identity]
    norm_num [V3.dot]
  exact ⟨h1, h2,
    (c7_theorem ⟨0, 0, 0, 1⟩ ⟨1, 0, 0⟩ ⟨0, 0, 1⟩ h1).2 h2⟩

/-! ## Claim C8 -/

/-- Claim C8: whenever the state quaternion is accepted (nonzero norm),
the derivative entry point returns a 13-element vector laid out as the
three velocity components copied from the input, then the linear
acceleration, the quaternion derivative, and the angular
acceleration. -/
theorem c8_theorem (env : Environment) (model : Model) (t : ℝ) (c : Coordinates)
    (hq : Quat.normSq ⟨c.qx, c.qy, c.qz, c.qw⟩ ≠ 0) :
    (let F := compute_forces env model (Quat.normalize ⟨c.qx, c.qy, c.qz, c.qw⟩)
       ⟨c.vx, c.vy, c.vz⟩ ⟨c.dphi, c.dtheta, c.dgamma⟩
     let T2 := compute_torques env model ⟨c.vx, c.vy, c.vz⟩
       ⟨c.dphi, c.dtheta, c.dgamma⟩ (Quat.normalize ⟨c.qx, c.qy, c.qz, c.qw⟩) F
     let L := [c.vx, c.vy, c.vz, F.Acc.x, F.Acc.y, F.Acc.z,
       T2.dq.x, T2.dq.y, T2.dq.z, T2.dq.w, T2.T.x, T2.T.y, T2.T.z]
     compute_derivatives env model t c = Except.ok L ∧ L.length = 13) := by
  refine ⟨?_, rfl⟩
  simp only [compute_derivatives, if_neg hq]

/-- Claim C8, witness: the theorem applied at a concrete accepted
state. -/
theorem c8_theorem_witness :
    Quat.normSq ⟨coordsB.qx, coordsB.qy, coordsB.qz, coordsB.qw⟩ ≠ 0 ∧
    (let F := compute_forces envA modelA
       (Quat.normalize ⟨coordsB.qx, coordsB.qy, coordsB.qz, coordsB.qw⟩)
       ⟨coordsB.vx, coordsB.vy, coordsB.vz⟩
       ⟨coordsB.dphi, coordsB.dtheta, coordsB.dgamma⟩
     let T2 := compute_torques envA modelA ⟨coordsB.vx, coordsB.vy, coordsB.vz⟩
       ⟨coordsB.dphi, coordsB.dtheta, coordsB.dgamma⟩
       (Quat.normalize ⟨coordsB.qx, coordsB.qy, coordsB.qz, coordsB.qw⟩) F
     let L := [coordsB.vx, coordsB.vy, coordsB.vz, F.Acc.x, F.Acc.y, F.Acc.z,
       T2.dq.x, T2.dq.y, T2.dq.z, T2.dq.w, T2.T.x, T2.T.y, T2.T.z]
     compute_derivatives envA modelA 0 coordsB = Except.ok L ∧ L.length = 13) := by
  have h1 : Quat.normSq ⟨coordsB.qx, coordsB.qy, coordsB.qz, coordsB.qw⟩ ≠ 0 := by
    norm_num [coordsB, Quat.normSq]
  exact ⟨h1, c8_theorem envA modelA 0 coordsB h1⟩

/-! ## Claim C9 -/

/-- Claim C9: the derivative evaluation is a pure function of the state
vector and the two injected collaborators: the result does not depend on
the time argument, the EOM object (hence the Environment and the Model
it holds) is returned unchanged by every call, and a call evaluated
after any earlier call returns exactly what it returns when evaluated
first. -/
theorem c9_theorem (eom : EOM) (t1 t2 : ℝ) (c c2 : Coordinates) :
    (eom.derivative_call t1 c).1 = (eom.derivative_call t2 c).1 ∧
    (eom.derivative_call t1 c).2 = eom ∧
    (eom.derivative_call t1 c).2.environment = eom.environment ∧
    (eom.derivative_call t1 c).2.model = eom.model ∧
    ((eom.derivative_call t1 c2).2.derivative_call t2 c).1 =
      (eom.derivative_call t2 c).1 :=
  ⟨rfl, rfl, rfl, rfl, rfl⟩

/-! ## Claim C10 -/

/-- Claim C10: scaling the four quaternion components of a state with
nonzero quaternion by a common positive factor leaves the derivative
vector unchanged, because Rotation.from_quat normalizes its input. -/
theorem c10_theorem (env : Environment) (model : Model) (t : ℝ)
    (c : Coordinates) (lam : ℝ) (hlam : 0 < lam)
    (hq : Quat.normSq ⟨c.qx, c.qy, c.qz, c.qw⟩ ≠ 0) :
    compute_derivatives env model t
      ⟨c.x, c.y, c.z, c.vx, c.vy, c.vz, lam * c.qx, lam * c.qy, lam * c.qz,
        lam * c.qw, c.dphi, c.dtheta, c.dgamma⟩ =
      compute_derivatives env model t c := by
  have hsq : Quat.normSq ⟨lam * c.qx, lam * c.qy, lam * c.qz, lam * c.qw⟩ =
      lam ^ 2 * Quat.normSq ⟨c.qx, c.qy, c.qz, c.qw⟩ := by
    simp only [Quat.normSq]
    ring
  have hq2 : Quat.normSq ⟨lam * c.qx, lam * c.qy, lam * c.qz, lam * c.qw⟩ ≠ 0 := by
    rw [hsq]
    exact mul_ne_zero (pow_ne_zero 2 hlam.ne') hq
  simp only [compute_derivatives, if_neg hq, if_neg hq2,
    Quat.normalize_smul lam c.qx c.qy c.qz c.qw hlam]

/-- Claim C10, witness: the theorem applied with the identity state
quaternion scaled by 2. -/
theorem c10_theorem_witness :
    (0 : ℝ) < 2 ∧
    Quat.normSq ⟨coordsB.qx, coordsB.qy, coordsB.qz, coordsB.qw⟩ ≠ 0 ∧
    compute_derivatives envA modelA 0
      ⟨coordsB.x, coordsB.y, coordsB.z, coordsB.vx, coordsB.vy, coordsB.vz,
        2 * coordsB.qx, 2 * coordsB.qy, 2 * coordsB.qz, 2 * coordsB.qw,
        coordsB.dphi, coordsB.dtheta, coordsB.dgamma⟩ =
      compute_derivatives envA modelA 0 coordsB := by
  have h1 : Quat.normSq ⟨coordsB.qx, coordsB.qy, coordsB.qz, coordsB.qw⟩ ≠ 0 := by
    norm_num [coordsB, Quat.normSq]
  exact ⟨by norm_num, h1,
    c10_theorem envA modelA 0 coordsB 2 (by norm_num) h1⟩

end FrisPy
